import Mathlib

/-!
Shallow embedding of `src/bot.py` (Jokers Telegram bot).

The file models, faithfully to the Python source:
* `HealthCheckHandler.do_GET` (lines 35-43) as a pure function from a
  request path to an HTTP response value;
* the `HEALTH_CHECK_ENABLED` resolution (lines 17-23): the explicit
  config value wins when the import succeeds, otherwise the flag is the
  Python truthiness of `os.getenv` on the deployment markers;
* `TelegramBot.setup_bot` (lines 99-133) as a fallible chain of
  registration steps over an explicit `World` of step outcomes;
* `TelegramBot.setup_health_server` (lines 60-68), `TelegramBot.__init__`
  (lines 52-58) and `TelegramBot.start` (lines 70-97) as state-passing
  functions that also emit a trace of observable events (socket bind
  attempts, server thread starts, warnings, the `run_polling` call).
-/

namespace JokersBot

/-- An HTTP response as produced by the health responder: status code,
header list and body. -/
structure HttpResponse where
  status : Nat
  headers : List (String × String)
  body : String
deriving Repr, DecidableEq

/-- The exact body written for `/health` by `HealthCheckHandler.do_GET`. -/
def healthBody : String :=
  "\x7b\"status\": \"healthy\", \"bot\": \"jokers-telegram-bot\"\x7d"

/-- `HealthCheckHandler.do_GET` (bot.py lines 35-43): `/health` gets a 200
with a JSON content-type header and the fixed body; every other path gets
a 404 with no body written. -/
def do_GET (path : String) : HttpResponse :=
  if path = "/health" then
    { status := 200
      headers := [("Content-type", "application/json")]
      body := healthBody }
  else
    { status := 404, headers := [], body := "" }

/-- Python truthiness of an `os.getenv` result: `None` and the empty
string are falsy, any other string is truthy. -/
def pyTruthy : Option String → Bool
  | none => false
  | some s => s != ""

/-- The module-level `HEALTH_CHECK_ENABLED` resolution (bot.py lines
17-23).  `explicitFlag = some b` models a successful
`from config import HEALTH_CHECK_ENABLED`; `none` models the
`ImportError` fallback, which reads the deployment markers `RENDER` and
`RENDER_SERVICE_ID` from the environment. -/
def HEALTH_CHECK_ENABLED (explicitFlag : Option Bool)
    (env : String → Option String) : Bool :=
  match explicitFlag with
  | some b => b
  | none => pyTruthy (env "RENDER") || pyTruthy (env "RENDER_SERVICE_ID")

/-- The handler callbacks imported from `handlers` (bot.py lines 24-28).
Their bodies are external collaborators; only their identity matters for
dispatch registration. -/
inductive HandlerId
  | start_command
  | help_command
  | about_command
  | dev_command
  | stats_command
  | deploy_command
  | handle_new_chat_members
  | handle_message
  | handle_edited_message
  | error_handler
deriving Repr, DecidableEq

/-- The three message-shape filters registered in `setup_bot`
(bot.py lines 113-124): `filters.StatusUpdate.NEW_CHAT_MEMBERS`,
`filters.TEXT & ~filters.COMMAND`, `filters.UpdateType.EDITED_MESSAGE`. -/
inductive MsgFilter
  | NEW_CHAT_MEMBERS
  | TEXT_NOT_COMMAND
  | EDITED_MESSAGE
deriving Repr, DecidableEq

/-- Modelled from the spec: the content of a Telegram message as the
dispatcher predicates classify it.  The filter implementations live in
the external `telegram.ext` library, which is not part of this
repository; the spec describes the predicate classes as command text
vs. new-member notice vs. edited message vs. ordinary text, so message
content is a disjoint sum of a text payload, a new-chat-members service
notice, or anything else. -/
inductive MessageContent
  | textContent (s : String)
  | newChatMembersNotice
  | otherContent
deriving Repr, DecidableEq

/-- Modelled from the spec: an incoming update carries either an ordinary
message or an edited message (a Telegram update holds at most one of the
two). -/
inductive Update
  | message (c : MessageContent)
  | edited_message (c : MessageContent)
deriving Repr, DecidableEq

/-- Command text begins with the slash character. -/
def isCommandText (s : String) : Bool := s.startsWith "/"

/-- Modelled from the spec: the match predicate of each registered
message-shape filter over an incoming update.
`NEW_CHAT_MEMBERS` matches a message that is a new-chat-members notice;
`TEXT & ~COMMAND` matches an ordinary message whose content is text not
beginning with a command slash; `EDITED_MESSAGE` matches an
edited-message update. -/
def filterMatches : MsgFilter → Update → Bool
  | .NEW_CHAT_MEMBERS, .message .newChatMembersNotice => true
  | .NEW_CHAT_MEMBERS, _ => false
  | .TEXT_NOT_COMMAND, .message (.textContent s) => !(isCommandText s)
  | .TEXT_NOT_COMMAND, _ => false
  | .EDITED_MESSAGE, .edited_message _ => true
  | .EDITED_MESSAGE, _ => false

/-- The bot application value built by `setup_bot`: the registered
command handlers, message-shape handlers (in registration order), and
the error handler. -/
structure Application where
  command_handlers : List (String × HandlerId)
  message_handlers : List (MsgFilter × HandlerId)
  error_handler : Option HandlerId
deriving Repr, DecidableEq

def emptyApp : Application :=
  { command_handlers := [], message_handlers := [], error_handler := none }

def addCommand (name : String) (h : HandlerId) (app : Application) :
    Application :=
  { app with command_handlers := app.command_handlers ++ [(name, h)] }

def addMessageHandler (f : MsgFilter) (h : HandlerId) (app : Application) :
    Application :=
  { app with message_handlers := app.message_handlers ++ [(f, h)] }

def addErrorHandler (h : HandlerId) (app : Application) : Application :=
  { app with error_handler := some h }

/-- The outcomes of the fallible external calls made during a run:
whether `Application.builder()...build()` succeeds, whether the i-th
`add_handler` call succeeds (calls are numbered 0-8 in source order),
whether `add_error_handler` succeeds, and whether binding the health
server socket succeeds. -/
structure World where
  buildOk : Bool
  addHandlerOk : Nat → Bool
  addErrorHandlerOk : Bool
  bindOk : Bool

/-- Errors escaping the bot methods: a setup failure raised out of
`setup_bot`, or the `RuntimeError` raised by `start` when the
application is missing. -/
inductive BotError
  | setupFailure
  | runtimeError (msg : String)
deriving Repr, DecidableEq

/-- One `add_handler` call: if the call fails the exception propagates
(as `setupFailure`), otherwise registration continues with the updated
application. -/
def addHandlerStep (ok : Bool) (next : Except BotError Application) :
    Except BotError Application :=
  if ok then next else .error .setupFailure

/-- The application with every handler of `setup_bot` registered, in
source order (bot.py lines 106-127). -/
def fullApp : Application :=
  addErrorHandler .error_handler <|
  addMessageHandler .EDITED_MESSAGE .handle_edited_message <|
  addMessageHandler .TEXT_NOT_COMMAND .handle_message <|
  addMessageHandler .NEW_CHAT_MEMBERS .handle_new_chat_members <|
  addCommand "deploy" .deploy_command <|
  addCommand "stats" .stats_command <|
  addCommand "dev" .dev_command <|
  addCommand "about" .about_command <|
  addCommand "help" .help_command <|
  addCommand "start" .start_command emptyApp

/-- `TelegramBot.setup_bot` (bot.py lines 99-133): build the
application, then register the six command handlers, the three message
handlers and the error handler in order.  The `try` block logs and
re-raises, so any failing step aborts the chain and the error
propagates; on success the application carries the full handler set. -/
def setup_bot (w : World) : Except BotError Application :=
  addHandlerStep w.buildOk <|
  addHandlerStep (w.addHandlerOk 0) <|
  addHandlerStep (w.addHandlerOk 1) <|
  addHandlerStep (w.addHandlerOk 2) <|
  addHandlerStep (w.addHandlerOk 3) <|
  addHandlerStep (w.addHandlerOk 4) <|
  addHandlerStep (w.addHandlerOk 5) <|
  addHandlerStep (w.addHandlerOk 6) <|
  addHandlerStep (w.addHandlerOk 7) <|
  addHandlerStep (w.addHandlerOk 8) <|
  addHandlerStep w.addErrorHandlerOk (.ok fullApp)

/-- The handle held in `self.health_server` after a successful
`setup_health_server`: the bound port and the daemon flag of the serving
thread. -/
structure HealthServer where
  port : Nat
  threadDaemon : Bool
deriving Repr, DecidableEq

/-- The keyword configuration passed to `run_polling`
(bot.py lines 85-93). -/
structure PollingConfig where
  poll_interval : Rat
  timeout : Nat
  read_timeout : Nat
  write_timeout : Nat
  connect_timeout : Nat
  pool_timeout : Nat
  drop_pending_updates : Bool
deriving Repr, DecidableEq

/-- The configuration literal used by `start` (bot.py lines 85-93). -/
def pollingConfigUsed : PollingConfig :=
  { poll_interval := 1
    timeout := 10
    read_timeout := 10
    write_timeout := 10
    connect_timeout := 10
    pool_timeout := 10
    drop_pending_updates := true }

/-- Observable events of a run: an attempt to bind the listening socket,
a health-server thread start (with its daemon flag), the caught-bind
warning log, and the invocation of `run_polling`. -/
inductive Event
  | bindAttempt (port : Nat)
  | serverStarted (port : Nat) (daemon : Bool)
  | warnHealthServerFailed
  | runPolling (cfg : PollingConfig)
deriving Repr, DecidableEq

/-- The mutable fields of `TelegramBot` (bot.py lines 54-55). -/
structure BotState where
  application : Option Application
  health_server : Option HealthServer
deriving Repr, DecidableEq

/-- `TelegramBot.setup_health_server` (bot.py lines 60-68): try to bind
an `HTTPServer` on the configured port and start `serve_forever` on a
thread created with `daemon=True`.  Any exception is caught and logged
as a warning; it never propagates and `self.health_server` stays
unset. -/
def setup_health_server (w : World) (port : Nat) (s : BotState) :
    BotState × List Event :=
  if w.bindOk then
    ({ s with health_server := some { port := port, threadDaemon := true } },
     [.bindAttempt port, .serverStarted port true])
  else
    (s, [.bindAttempt port, .warnHealthServerFailed])

/-- `TelegramBot.__init__` (bot.py lines 52-58): fields start as `None`,
`setup_bot` runs (its failure propagates out of the constructor), then
the health server is set up when `HEALTH_CHECK_ENABLED` is true. -/
def initBot (w : World) (hce : Bool) (port : Nat) :
    Except BotError BotState × List Event :=
  match setup_bot w with
  | .error e => (.error e, [])
  | .ok app =>
    let s1 : BotState := { application := some app, health_server := none }
    if hce then
      let (s2, t) := setup_health_server w port s1
      (.ok s2, t)
    else
      (.ok s1, [])

/-- `TelegramBot.start` (bot.py lines 70-97): raise `RuntimeError` when
the application is missing; otherwise start the health server when the
flag is set and no server is present yet, then invoke `run_polling` with
the fixed configuration.  The surrounding `try` logs and re-raises, so
errors propagate. -/
def start (w : World) (hce : Bool) (port : Nat) (s : BotState) :
    Except BotError (BotState × PollingConfig) × List Event :=
  match s.application with
  | none =>
    (.error (.runtimeError "Bot application not properly initialized"), [])
  | some _ =>
    let (s2, t) :=
      if hce && s.health_server.isNone then setup_health_server w port s
      else (s, [])
    (.ok (s2, pollingConfigUsed), t ++ [.runPolling pollingConfigUsed])

/-- A full run: construct the bot, then call `start` on it, collecting
the event trace of both phases. -/
def runBot (w : World) (hce : Bool) (port : Nat) :
    Except BotError (BotState × PollingConfig) × List Event :=
  match initBot w hce port with
  | (.error e, t) => (.error e, t)
  | (.ok s, t) =>
    let (r, t2) := start w hce port s
    (r, t ++ t2)

/-- Recognizes a socket bind attempt in the trace. -/
def isBindAttempt : Event → Bool
  | .bindAttempt _ => true
  | _ => false

/-- Recognizes a health-server thread start in the trace. -/
def isServerStarted : Event → Bool
  | .serverStarted _ _ => true
  | _ => false

/-- Recognizes the `run_polling` invocation in the trace. -/
def isRunPolling : Event → Bool
  | .runPolling _ => true
  | _ => false

/-- How many health-server instances a trace starts. -/
def serverStartCount (t : List Event) : Nat :=
  (t.filter isServerStarted).length

/-- Lower-cases a header name character by character (HTTP header names
compare case-insensitively). -/
def lowerName (s : String) : String := ⟨s.data.map Char.toLower⟩

/-! ### Helper lemmas -/

/-- Inversion of one registration step: a step that ends in a fully
registered application must itself have succeeded. -/
theorem addHandlerStep_ok_inv (ok : Bool) (next : Except BotError Application)
    (app : Application) (h : addHandlerStep ok next = .ok app) :
    next = .ok app := by
  unfold addHandlerStep at h
  split at h
  · exact h
  · exact absurd h (by simp)

/-- A successful `setup_bot` run always yields the fully registered
application. -/
theorem setup_bot_ok_eq (w : World) (app : Application)
    (h : setup_bot w = .ok app) : app = fullApp := by
  unfold setup_bot at h
  repeat replace h := addHandlerStep_ok_inv _ _ _ h
  injection h with h
  exact h.symm

/-- The message handlers of the fully registered application, in
registration order. -/
theorem fullApp_message_handlers :
    fullApp.message_handlers =
      [(MsgFilter.NEW_CHAT_MEMBERS, HandlerId.handle_new_chat_members),
       (MsgFilter.TEXT_NOT_COMMAND, HandlerId.handle_message),
       (MsgFilter.EDITED_MESSAGE, HandlerId.handle_edited_message)] := rfl

/-! ### Claims -/

/-- C1: a GET whose path is `/health` is answered with status 200, a
content-type header (case-insensitively `content-type`) valued
`application/json`, and exactly the body
`\x7b"status": "healthy", "bot": "jokers-telegram-bot"\x7d`; a GET on
any other path is answered with status 404 and an empty body. -/
theorem health_responder_contract (path : String) :
    (path = "/health" →
      (do_GET path).status = 200 ∧
      (do_GET path).headers.map (fun h => (lowerName h.1, h.2)) =
        [("content-type", "application/json")] ∧
      (do_GET path).body =
        "\x7b\"status\": \"healthy\", \"bot\": \"jokers-telegram-bot\"\x7d") ∧
    (path ≠ "/health" →
      (do_GET path).status = 404 ∧ (do_GET path).body = "") := by
  constructor
  · intro h
    subst h
    refine ⟨rfl, by decide, rfl⟩
  · intro h
    simp [do_GET, h]

/-- C1 witness: the contract evaluated at `/health` and at `/metrics`. -/
theorem health_responder_contract_witness :
    ((do_GET "/health").status = 200 ∧
      (do_GET "/health").headers.map (fun h => (lowerName h.1, h.2)) =
        [("content-type", "application/json")] ∧
      (do_GET "/health").body =
        "\x7b\"status\": \"healthy\", \"bot\": \"jokers-telegram-bot\"\x7d") ∧
    ((do_GET "/metrics").status = 404 ∧ (do_GET "/metrics").body = "") :=
  ⟨(health_responder_contract "/health").1 rfl,
   (health_responder_contract "/metrics").2 (by decide)⟩

/-- C8: the health flag resolution has deterministic precedence: a
successful explicit import wins; otherwise a nonempty `RENDER` or
`RENDER_SERVICE_ID` environment marker turns the flag on; with neither
marker set the flag defaults to false. -/
theorem health_flag_resolution :
    (∀ (b : Bool) (env : String → Option String),
      HEALTH_CHECK_ENABLED (some b) env = b) ∧
    (∀ (env : String → Option String) (v : String),
      env "RENDER" = some v → v ≠ "" →
      HEALTH_CHECK_ENABLED none env = true) ∧
    (∀ (env : String → Option String) (v : String),
      env "RENDER_SERVICE_ID" = some v → v ≠ "" →
      HEALTH_CHECK_ENABLED none env = true) ∧
    (∀ env : String → Option String,
      env "RENDER" = none → env "RENDER_SERVICE_ID" = none →
      HEALTH_CHECK_ENABLED none env = false) := by
  refine ⟨fun b env => rfl, ?_, ?_, ?_⟩
  · intro env v hv hne
    simp [HEALTH_CHECK_ENABLED, pyTruthy, hv, hne]
  · intro env v hv hne
    simp [HEALTH_CHECK_ENABLED, pyTruthy, hv, hne]
  · intro env h1 h2
    simp [HEALTH_CHECK_ENABLED, pyTruthy, h1, h2]

/-- C8 witness: the four precedence cases at concrete environments. -/
theorem health_flag_resolution_witness :
    HEALTH_CHECK_ENABLED (some false)
      (fun k => if k = "RENDER" then some "true" else none) = false ∧
    HEALTH_CHECK_ENABLED none
      (fun k => if k = "RENDER" then some "true" else none) = true ∧
    HEALTH_CHECK_ENABLED none
      (fun k => if k = "RENDER_SERVICE_ID" then some "srv-1" else none) = true ∧
    HEALTH_CHECK_ENABLED none (fun _ => none) = false :=
  ⟨health_flag_resolution.1 false _,
   health_flag_resolution.2.1 _ "true" (by decide) (by decide),
   health_flag_resolution.2.2.1 _ "srv-1" (by decide) (by decide),
   health_flag_resolution.2.2.2 _ rfl rfl⟩

/-- C2: when any setup step fails (client build, a handler registration,
or the error-handler registration), the whole run propagates the setup
error and `run_polling` is never invoked. -/
theorem setup_failure_never_polls (w : World) (hce : Bool) (port : Nat)
    (h : ∃ e, setup_bot w = .error e) :
    (∃ e, (runBot w hce port).1 = .error e) ∧
    (runBot w hce port).2.all (fun ev => !isRunPolling ev) = true := by
  obtain ⟨e, he⟩ := h
  simp [runBot, initBot, he]

/-- C2 witness: a world whose client construction fails. -/
theorem setup_failure_never_polls_witness :
    (∃ e, setup_bot ⟨false, fun _ => true, true, true⟩ = .error e) ∧
    ((∃ e, (runBot ⟨false, fun _ => true, true, true⟩ true 10000).1 =
        .error e) ∧
     (runBot ⟨false, fun _ => true, true, true⟩ true 10000).2.all
        (fun ev => !isRunPolling ev) = true) :=
  ⟨⟨.setupFailure, rfl⟩,
   setup_failure_never_polls ⟨false, fun _ => true, true, true⟩ true 10000
     ⟨.setupFailure, rfl⟩⟩

/-- C3: a socket bind failure is non-fatal: with the health flag on and
the bind failing, the full run still succeeds and reaches `run_polling`,
the warning is logged, and no health server handle is held. -/
theorem bind_failure_is_nonfatal (w : World) (port : Nat)
    (app : Application) (hok : setup_bot w = .ok app)
    (hbind : w.bindOk = false) :
    ∃ s, (runBot w true port).1 = .ok (s, pollingConfigUsed) ∧
      s.health_server = none ∧
      Event.warnHealthServerFailed ∈ (runBot w true port).2 ∧
      Event.runPolling pollingConfigUsed ∈ (runBot w true port).2 := by
  refine ⟨{ application := some app, health_server := none }, ?_⟩
  simp [runBot, initBot, start, setup_health_server, hok, hbind]

/-- C3 witness: a world where every setup step succeeds but the bind
fails. -/
theorem bind_failure_is_nonfatal_witness :
    setup_bot ⟨true, fun _ => true, true, false⟩ = .ok fullApp ∧
    World.bindOk ⟨true, fun _ => true, true, false⟩ = false ∧
    (∃ s, (runBot ⟨true, fun _ => true, true, false⟩ true 10000).1 =
        .ok (s, pollingConfigUsed) ∧
      s.health_server = none ∧
      Event.warnHealthServerFailed ∈
        (runBot ⟨true, fun _ => true, true, false⟩ true 10000).2 ∧
      Event.runPolling pollingConfigUsed ∈
        (runBot ⟨true, fun _ => true, true, false⟩ true 10000).2) :=
  ⟨rfl, rfl,
   bind_failure_is_nonfatal ⟨true, fun _ => true, true, false⟩ 10000 fullApp
     rfl rfl⟩

/-- C4: every `run_polling` invocation emitted by `start` uses exactly
poll interval 1.0, timeout 10 for the overall, read, write, connect and
pool phases, and the drop-pending-updates policy. -/
theorem polling_configuration (w : World) (hce : Bool) (port : Nat)
    (s : BotState) (cfg : PollingConfig)
    (h : Event.runPolling cfg ∈ (start w hce port s).2) :
    cfg.poll_interval = 1 ∧ cfg.timeout = 10 ∧ cfg.read_timeout = 10 ∧
    cfg.write_timeout = 10 ∧ cfg.connect_timeout = 10 ∧
    cfg.pool_timeout = 10 ∧ cfg.drop_pending_updates = true := by
  have hcfg : cfg = pollingConfigUsed := by
    cases hs : s.application with
    | none => simp [start, hs] at h
    | some a =>
      simp only [start, hs] at h
      split at h <;>
        cases hb : w.bindOk <;>
          simp_all [setup_health_server]
  subst hcfg
  exact ⟨rfl, rfl, rfl, rfl, rfl, rfl, rfl⟩

/-- C4 witness: a concrete `start` run that reaches `run_polling`. -/
theorem polling_configuration_witness :
    Event.runPolling pollingConfigUsed ∈
      (start ⟨true, fun _ => true, true, true⟩ true 10000
        ⟨some fullApp, none⟩).2 ∧
    (pollingConfigUsed.poll_interval = 1 ∧ pollingConfigUsed.timeout = 10 ∧
     pollingConfigUsed.read_timeout = 10 ∧
     pollingConfigUsed.write_timeout = 10 ∧
     pollingConfigUsed.connect_timeout = 10 ∧
     pollingConfigUsed.pool_timeout = 10 ∧
     pollingConfigUsed.drop_pending_updates = true) :=
  ⟨by decide,
   polling_configuration ⟨true, fun _ => true, true, true⟩ true 10000
     ⟨some fullApp, none⟩ pollingConfigUsed (by decide)⟩

/-- C5: on the application built by a successful `setup_bot`, at most one
registered message-shape filter matches any given update: the
new-chat-members, plain-text-not-command and edited-message predicates
are mutually exclusive over the update model. -/
theorem message_filters_mutually_exclusive (w : World) (app : Application)
    (h : setup_bot w = .ok app) (u : Update) :
    (app.message_handlers.filter (fun p => filterMatches p.1 u)).length ≤ 1 := by
  have happ := setup_bot_ok_eq w app h
  subst happ
  rw [fullApp_message_handlers]
  cases u with
  | message c =>
    cases c with
    | textContent s =>
      simp only [List.filter, filterMatches]
      cases hc : isCommandText s <;> simp
    | newChatMembersNotice => simp [List.filter, filterMatches]
    | otherContent => simp [List.filter, filterMatches]
  | edited_message c => simp [List.filter, filterMatches]

/-- C5 witness: mutual exclusivity at a successfully built application
and a concrete edited text update (the shape that would overlap if the
predicates were not exclusive). -/
theorem message_filters_mutually_exclusive_witness :
    setup_bot ⟨true, fun _ => true, true, true⟩ = .ok fullApp ∧
    (fullApp.message_handlers.filter
      (fun p => filterMatches p.1 (.edited_message (.textContent "hi")))).length
      ≤ 1 :=
  ⟨rfl,
   message_filters_mutually_exclusive ⟨true, fun _ => true, true, true⟩
     fullApp rfl (.edited_message (.textContent "hi"))⟩

/-- C6: with the health flag off, a full run (construction followed by
`start`) never attempts to bind a listening socket. -/
theorem no_socket_when_disabled (w : World) (port : Nat) :
    (runBot w false port).2.any isBindAttempt = false := by
  cases hs : setup_bot w <;>
    simp [runBot, initBot, start, hs, isBindAttempt]

/-- C7: a full run starts at most one health-server instance: once
construction has started the server, the guard in `start` prevents a
second one. -/
theorem at_most_one_health_server (w : World) (hce : Bool) (port : Nat) :
    serverStartCount (runBot w hce port).2 ≤ 1 := by
  cases hs : setup_bot w with
  | error e => simp [runBot, initBot, hs, serverStartCount]
  | ok app =>
    cases hce <;> cases hb : w.bindOk <;>
      simp [runBot, initBot, start, setup_health_server, hs, hb,
        serverStartCount, isServerStarted, List.filter]

/-- C9: every health-server thread started during a run is marked
daemonic. -/
theorem health_thread_daemonic (w : World) (hce : Bool) (port p : Nat)
    (d : Bool) (h : Event.serverStarted p d ∈ (runBot w hce port).2) :
    d = true := by
  cases hs : setup_bot w with
  | error e => simp [runBot, initBot, hs] at h
  | ok app =>
    cases hce <;> cases hb : w.bindOk <;>
      simp_all [runBot, initBot, start, setup_health_server, hs, hb]

/-- C9 witness: a run that does start the health server. -/
theorem health_thread_daemonic_witness :
    Event.serverStarted 10000 true ∈
      (runBot ⟨true, fun _ => true, true, true⟩ true 10000).2 ∧ true = true :=
  ⟨by decide,
   health_thread_daemonic ⟨true, fun _ => true, true, true⟩ true 10000 10000
     true (by decide)⟩

/-- C10: calling `start` while the application is missing raises the
`RuntimeError` immediately: the trace is empty, so no bind attempt and
no `run_polling` happen. -/
theorem start_requires_initialized (w : World) (hce : Bool) (port : Nat)
    (s : BotState) (h : s.application = none) :
    start w hce port s =
      (.error (.runtimeError "Bot application not properly initialized"),
        []) ∧
    (start w hce port s).2.any isBindAttempt = false ∧
    (start w hce port s).2.any isRunPolling = false := by
  simp [start, h]

/-- C10 witness: `start` on a state whose application is `none`. -/
theorem start_requires_initialized_witness :
    BotState.application ⟨none, none⟩ = none ∧
    (start ⟨true, fun _ => true, true, true⟩ true 10000 ⟨none, none⟩ =
      (.error (.runtimeError "Bot application not properly initialized"),
        []) ∧
     (start ⟨true, fun _ => true, true, true⟩ true 10000
        ⟨none, none⟩).2.any isBindAttempt = false ∧
     (start ⟨true, fun _ => true, true, true⟩ true 10000
        ⟨none, none⟩).2.any isRunPolling = false) :=
  ⟨rfl,
   start_requires_initialized ⟨true, fun _ => true, true, true⟩ true 10000
     ⟨none, none⟩ rfl⟩

end JokersBot
